import Mathlib

/-!
Verification of the SQLiter For C++11 wrapper (SQLiteHandler / StatementHandler /
ValueHandler) against its natural-language specification.

The development shallowly embeds the wrapper code. The underlying SQLite3 engine
is the external black box the spec describes: it is modelled by a small explicit
state (result rows, bindings, parameter counts) for prepared statements, and by
an Engine record of result codes for connection-level calls. Every wrapper
function is translated directly from the C++ sources in src/SQLiteHandler.cpp,
src/StatementHandler.cpp and include/StatementHandler.h; functions that can
throw are embedded with an Except return type, functions with no throw path are
embedded as plain functions.
-/

namespace SQLiter

/-- SQLite result code SQLITE_OK (success). -/
def SQLITE_OK : Int := 0

/-- SQLite result code SQLITE_ERROR (generic error). -/
def SQLITE_ERROR : Int := 1

/-- SQLite result code SQLITE_RANGE (bind parameter index out of range). -/
def SQLITE_RANGE : Int := 25

/-- SQLite result code SQLITE_ROW (a result row is available). -/
def SQLITE_ROW : Int := 100

/-- SQLite result code SQLITE_DONE (execution finished, no more rows). -/
def SQLITE_DONE : Int := 101

/-- SQLite column type code for INTEGER values. -/
def SQLITE_INTEGER : Int := 1

/-- SQLite column type code for FLOAT values. -/
def SQLITE_FLOAT : Int := 2

/-- SQLite column type code for TEXT values. -/
def SQLITE_TEXT : Int := 3

/-- SQLite column type code for BLOB values. -/
def SQLITE_BLOB : Int := 4

/-- SQLite column type code for NULL values. -/
def SQLITE_NULL : Int := 5

/-- The error conditions observable from the wrapper: an SQLiteException thrown
by the wrapper itself, or a std::out_of_range thrown by std::map::at during an
alias or key lookup. -/
inductive Err where
  | sqliteEx (msg : String)
  | outOfRange (msg : String)
deriving DecidableEq, Repr

/-- A dynamically typed SQLite value held in a result column. Doubles are kept
abstract (identified by their bit pattern as a Nat): the wrapper never computes
with them, it only dispatches on the type tag and copies values through. -/
inductive SQLValue where
  | integer (v : Int)
  | float (bits : Nat)
  | text (s : String)
  | blob (b : List Nat)
  | null
deriving DecidableEq, Repr

/-- The engine type code attached to a stored value. -/
def SQLValue.typeCode : SQLValue → Int
  | .integer _ => SQLITE_INTEGER
  | .float _ => SQLITE_FLOAT
  | .text _ => SQLITE_TEXT
  | .blob _ => SQLITE_BLOB
  | .null => SQLITE_NULL

/-- Lookup in an association list with string keys, mirroring std::map find
semantics (keys are unique). -/
def assocFind {α : Type} (k : String) : List (String × α) → Option α
  | [] => none
  | (k2, v) :: rest => if k2 = k then some v else assocFind k rest

/-- std::map::insert semantics: if the key is already present, the map is left
unchanged and the new value is discarded; otherwise the pair is added. The
position of the new entry is irrelevant to lookup, erase and clear. -/
def mapInsert {α : Type} (k : String) (v : α) (m : List (String × α)) :
    List (String × α) :=
  match assocFind k m with
  | some _ => m
  | none => (k, v) :: m

/-- std::map::erase by key. -/
def mapErase {α : Type} (k : String) (m : List (String × α)) :
    List (String × α) :=
  m.filter (fun p => p.1 != k)

theorem assocFind_mapInsert_absent {α : Type} (k : String) (v : α)
    (m : List (String × α)) (h : assocFind k m = none) :
    assocFind k (mapInsert k v m) = some v := by
  unfold mapInsert
  rw [h]
  simp [assocFind]

theorem assocFind_mapInsert_present {α : Type} (k : String) (v w : α)
    (m : List (String × α)) (h : assocFind k m = some w) :
    mapInsert k v m = m := by
  unfold mapInsert
  rw [h]

/-- Per-column provenance metadata the engine reports through the
sqlite3_column_database_name / _table_name / _origin_name introspection. -/
structure ColMeta where
  dbName : String
  tblName : String
  orgName : String
deriving DecidableEq, Repr

/-- The engine-side state of one prepared statement, together with the two
alias maps the StatementHandler owns (inputAlias and outputAlias in
StatementHandler.h). resultRows are the rows the compiled query produces in
order; cursor counts the SQLITE_ROW results returned so far; hasRow is true
exactly when the last sqlite3_step returned SQLITE_ROW, so a current row is
readable. paramCount is the number of bindable parameters. -/
structure StmtState where
  resultRows : List (List SQLValue)
  cursor : Nat
  hasRow : Bool
  paramCount : Nat
  bindings : List (Int × SQLValue)
  inputAlias : List (String × Int)
  outputAlias : List (String × Int)
  metaCols : List ColMeta
deriving DecidableEq, Repr

/-- The value in column col of the current row, if the statement is on a valid
row and the index is in range. -/
def currentCell (st : StmtState) (col : Int) : Option SQLValue :=
  if st.hasRow then
    match st.resultRows.get? (st.cursor - 1) with
    | some row => if 0 ≤ col then row.get? col.toNat else none
    | none => none
  else none

/-- Engine primitive sqlite3_column_type: the type code of the value in the
column at the current row; NULL is reported when no valid row or column is
addressed. -/
def engineColumnType (st : StmtState) (col : Int) : Int :=
  match currentCell st col with
  | some v => v.typeCode
  | none => SQLITE_NULL

/-- Engine primitive sqlite3_step: returns SQLITE_ROW and advances the cursor
while result rows remain, SQLITE_DONE once the rows are exhausted; further
calls without a reset keep returning SQLITE_DONE. -/
def engineStep (st : StmtState) : Int × StmtState :=
  if st.cursor < st.resultRows.length then
    (SQLITE_ROW, { st with cursor := st.cursor + 1, hasRow := true })
  else
    (SQLITE_DONE, { st with hasRow := false })

/-- Engine primitive sqlite3_reset: rewinds execution, preserving bindings. -/
def engineReset (st : StmtState) : StmtState :=
  { st with cursor := 0, hasRow := false }

/-- Engine primitive sqlite3_clear_bindings: nulls all bound parameters without
moving the cursor. -/
def engineClearBindings (st : StmtState) : StmtState :=
  { st with bindings := [] }

/-- Engine bind primitive shared by all sqlite3_bind variants: SQLITE_OK and a
binding update when the 1-based index is in range, SQLITE_RANGE and no state
change otherwise. -/
def engineBind (st : StmtState) (var : Int) (v : SQLValue) : Int × StmtState :=
  if 1 ≤ var ∧ var ≤ (st.paramCount : Int) then
    (SQLITE_OK, { st with bindings := (var, v) :: (st.bindings.filter (fun p => p.1 != var)) })
  else
    (SQLITE_RANGE, st)

/-- Engine primitive sqlite3_column_text as observed through the wrapper:
the stored text of a TEXT cell (the typed getters only reach it after the
type check has passed). -/
def engineColumnText (st : StmtState) (col : Int) : String :=
  match currentCell st col with
  | some (.text s) => s
  | _ => ""

/-- Engine primitive sqlite3_column_int, modelled as returning the stored
integer of an INTEGER cell. -/
def engineColumnInt (st : StmtState) (col : Int) : Int :=
  match currentCell st col with
  | some (.integer i) => i
  | _ => 0

/-- Engine primitive sqlite3_column_int64, modelled as returning the stored
integer of an INTEGER cell. -/
def engineColumnInt64 (st : StmtState) (col : Int) : Int :=
  match currentCell st col with
  | some (.integer i) => i
  | _ => 0

/-- Engine primitive sqlite3_column_double: the (abstract) double of a FLOAT
cell. -/
def engineColumnDouble (st : StmtState) (col : Int) : Nat :=
  match currentCell st col with
  | some (.float b) => b
  | _ => 0

/-- Engine primitive sqlite3_column_blob: the bytes of a BLOB cell. -/
def engineColumnBlob (st : StmtState) (col : Int) : List Nat :=
  match currentCell st col with
  | some (.blob b) => b
  | _ => []

/-- Engine primitive sqlite3_column_bytes: byte size of the value currently in
the column. -/
def engineColumnBytes (st : StmtState) (col : Int) : Int :=
  match currentCell st col with
  | some (.text s) => (s.utf8ByteSize : Int)
  | some (.blob b) => (b.length : Int)
  | _ => 0

/-- Engine metadata access for one column. -/
def engineColMeta (st : StmtState) (col : Int) : Option ColMeta :=
  if 0 ≤ col then st.metaCols.get? col.toNat else none

/-- Non-owning view over one result column of a statement at its current step
position (class ValueHandler in ValueHandler.h). The source stores the raw
sqlite3_stmt pointer and the column number; the embedding stores the statement
state the pointer refers to at view creation. -/
structure ValueHandler where
  stmtView : StmtState
  colNum : Int
deriving DecidableEq, Repr

/-- ValueHandler operator int(): reads the column as an integer. -/
def ValueHandler.asInt (v : ValueHandler) : Int :=
  engineColumnInt v.stmtView v.colNum

/-- ValueHandler operator sqlite3_int64(). -/
def ValueHandler.asInt64 (v : ValueHandler) : Int :=
  engineColumnInt64 v.stmtView v.colNum

/-- ValueHandler operator double() (abstract double bits). -/
def ValueHandler.asDouble (v : ValueHandler) : Nat :=
  engineColumnDouble v.stmtView v.colNum

/-- ValueHandler operator const void pointer (blob bytes). -/
def ValueHandler.asBlob (v : ValueHandler) : List Nat :=
  engineColumnBlob v.stmtView v.colNum

/-- ValueHandler operator const char pointer (text). -/
def ValueHandler.asText (v : ValueHandler) : String :=
  engineColumnText v.stmtView v.colNum

namespace StatementHandler

/-- StatementHandler::bind(const int, const std::string), StatementHandler.cpp
lines 52-54: calls sqlite3_bind_text and discards its result code. -/
def bindText (st : StmtState) (var : Int) (input : String) : StmtState :=
  (engineBind st var (.text input)).2

/-- StatementHandler::bind(const int, const int), lines 56-58: calls
sqlite3_bind_int and discards its result code. -/
def bindInt (st : StmtState) (var : Int) (input : Int) : StmtState :=
  (engineBind st var (.integer input)).2

/-- StatementHandler::bind(const int, const double), lines 60-62: calls
sqlite3_bind_double and discards its result code. -/
def bindDouble (st : StmtState) (var : Int) (input : Nat) : StmtState :=
  (engineBind st var (.float input)).2

/-- StatementHandler::bind(const int, const void *, const int), lines 64-66:
calls sqlite3_bind_blob with an explicit byte count and discards its result
code. -/
def bindBlob (st : StmtState) (var : Int) (input : List Nat) (size : Int) :
    StmtState :=
  (engineBind st var (.blob (input.take size.toNat))).2

/-- StatementHandler::bindNull(const int), lines 68-70: calls sqlite3_bind_null
and discards its result code. -/
def bindNull (st : StmtState) (var : Int) : StmtState :=
  (engineBind st var .null).2

/-- StatementHandler::getType(const int), lines 72-75: clamps the engine code
to the closed enumeration, returning 0 (ERROR) outside SQLITE_INTEGER..SQLITE_NULL.
This is the exact conditional expression of line 74. -/
def clampType (typeNum : Int) : Int :=
  if SQLITE_INTEGER ≤ typeNum ∧ typeNum ≤ SQLITE_NULL then typeNum else 0

/-- StatementHandler::getType(const int): sqlite3_column_type clamped by
clampType. A total function with no error outcome. -/
def getType (st : StmtState) (column : Int) : Int :=
  clampType (engineColumnType st column)

/-- StatementHandler::getSize(const int), lines 77-79. -/
def getSize (st : StmtState) (column : Int) : Int :=
  engineColumnBytes st column

/-- StatementHandler::getString(const int), lines 81-85: returns the text when
the dynamic type is TEXT, otherwise throws SQLiteException. -/
def getString (st : StmtState) (column : Int) : Except Err String :=
  if getType st column = SQLITE_TEXT then
    .ok (engineColumnText st column)
  else
    .error (.sqliteEx ("Column doesn\x27t contain a string"))

/-- StatementHandler::getInt(const int), lines 87-91. -/
def getInt (st : StmtState) (column : Int) : Except Err Int :=
  if getType st column = SQLITE_INTEGER then
    .ok (engineColumnInt st column)
  else
    .error (.sqliteEx ("Column doesn\x27t contain a int"))

/-- StatementHandler::getInt64(const int), lines 93-97. -/
def getInt64 (st : StmtState) (column : Int) : Except Err Int :=
  if getType st column = SQLITE_INTEGER then
    .ok (engineColumnInt64 st column)
  else
    .error (.sqliteEx ("Column doesn\x27t contain a int"))

/-- StatementHandler::getDouble(const int), lines 99-103. -/
def getDouble (st : StmtState) (column : Int) : Except Err Nat :=
  if getType st column = SQLITE_FLOAT then
    .ok (engineColumnDouble st column)
  else
    .error (.sqliteEx ("Column doesn\x27t contain a float"))

/-- StatementHandler::getBlob(const int), lines 105-109. -/
def getBlob (st : StmtState) (column : Int) : Except Err (List Nat) :=
  if getType st column = SQLITE_BLOB then
    .ok (engineColumnBlob st column)
  else
    .error (.sqliteEx ("Column doesn\x27t contain a blob"))

/-- StatementHandler::getColumn(const int), lines 111-113: wraps the statement
pointer and column into a ValueHandler with no validation. -/
def getColumn (st : StmtState) (column : Int) : ValueHandler :=
  ⟨st, column⟩

/-- StatementHandler::step(), lines 115-117: one sqlite3_step, true exactly
when the engine answered SQLITE_ROW. Both outcomes are returned normally. -/
def step (st : StmtState) : Bool × StmtState :=
  match engineStep st with
  | (code, st2) => (code == SQLITE_ROW, st2)

/-- StatementHandler::reset(), lines 119-121. -/
def reset (st : StmtState) : StmtState :=
  engineReset st

/-- StatementHandler::clear(), lines 123-125. -/
def clear (st : StmtState) : StmtState :=
  engineClearBindings st

/-- StatementHandler::columnCount(), lines 127-129. -/
def columnCount (st : StmtState) : Int :=
  (st.metaCols.length : Int)

/-- StatementHandler::databaseName(const int), lines 131-133. The source would
build a std::string from a null pointer on an invalid column; the model
returns the empty string there (the claims never exercise that path). -/
def databaseName (st : StmtState) (col : Int) : String :=
  match engineColMeta st col with
  | some m => m.dbName
  | none => ""

/-- StatementHandler::tableName(const int), lines 135-137. -/
def tableName (st : StmtState) (col : Int) : String :=
  match engineColMeta st col with
  | some m => m.tblName
  | none => ""

/-- StatementHandler::columnName(const int), lines 139-141. -/
def columnName (st : StmtState) (col : Int) : String :=
  match engineColMeta st col with
  | some m => m.orgName
  | none => ""

/-- StatementHandler::setInputAlias, lines 143-145: inputAlias.insert, which
keeps an existing entry for the alias unchanged. -/
def setInputAlias (st : StmtState) (alias2 : String) (colNum : Int) : StmtState :=
  { st with inputAlias := mapInsert alias2 colNum st.inputAlias }

/-- StatementHandler::setOutputAlias, lines 147-149. -/
def setOutputAlias (st : StmtState) (alias2 : String) (colNum : Int) : StmtState :=
  { st with outputAlias := mapInsert alias2 colNum st.outputAlias }

/-- inputAlias.at(var): yields the registered index or throws std::out_of_range
when the alias was never registered. -/
def inputAt (st : StmtState) (a : String) : Except Err Int :=
  match assocFind a st.inputAlias with
  | some v => .ok v
  | none => .error (.outOfRange ("map::at"))

/-- outputAlias.at(column): same semantics for the output alias map. -/
def outputAt (st : StmtState) (a : String) : Except Err Int :=
  match assocFind a st.outputAlias with
  | some v => .ok v
  | none => .error (.outOfRange ("map::at"))

/-- Alias overload bind(const std::string, const std::string),
StatementHandler.h lines 141-143: bind(inputAlias.at(var), input). -/
def bindTextAlias (st : StmtState) (a : String) (input : String) :
    Except Err StmtState :=
  (inputAt st a).map (fun v => bindText st v input)

/-- Alias overload bind(const std::string, const int), header lines 152-154. -/
def bindIntAlias (st : StmtState) (a : String) (input : Int) :
    Except Err StmtState :=
  (inputAt st a).map (fun v => bindInt st v input)

/-- Alias overload bind(const std::string, const double), header lines
163-165. -/
def bindDoubleAlias (st : StmtState) (a : String) (input : Nat) :
    Except Err StmtState :=
  (inputAt st a).map (fun v => bindDouble st v input)

/-- Alias overload bind(const std::string, const void *, const int), header
lines 174-176. -/
def bindBlobAlias (st : StmtState) (a : String) (input : List Nat) (size : Int) :
    Except Err StmtState :=
  (inputAt st a).map (fun v => bindBlob st v input size)

/-- Alias overload bindNull(const std::string), header lines 185-187: calls
sqlite3_bind_null directly on inputAlias.at(var). -/
def bindNullAlias (st : StmtState) (a : String) : Except Err StmtState :=
  (inputAt st a).map (fun v => (engineBind st v .null).2)

/-- Alias overload getType(const std::string), header lines 301-303. -/
def getTypeAlias (st : StmtState) (a : String) : Except Err Int :=
  (outputAt st a).map (fun v => getType st v)

/-- Alias overload getSize(const std::string), header lines 313-315. -/
def getSizeAlias (st : StmtState) (a : String) : Except Err Int :=
  (outputAt st a).map (fun v => getSize st v)

/-- Alias overload getString(const std::string), header lines 330-332. -/
def getStringAlias (st : StmtState) (a : String) : Except Err String :=
  (outputAt st a).bind (fun v => getString st v)

/-- Alias overload getInt(const std::string), header lines 345-347. -/
def getIntAlias (st : StmtState) (a : String) : Except Err Int :=
  (outputAt st a).bind (fun v => getInt st v)

/-- Alias overload getInt64(const std::string), header lines 360-362. -/
def getInt64Alias (st : StmtState) (a : String) : Except Err Int :=
  (outputAt st a).bind (fun v => getInt64 st v)

/-- Alias overload getDouble(const std::string), header lines 375-377. -/
def getDoubleAlias (st : StmtState) (a : String) : Except Err Nat :=
  (outputAt st a).bind (fun v => getDouble st v)

/-- Alias overload getBlob(const std::string), header lines 390-392. -/
def getBlobAlias (st : StmtState) (a : String) : Except Err (List Nat) :=
  (outputAt st a).bind (fun v => getBlob st v)

/-- Alias overload getColumn(const std::string), header lines 407-409. -/
def getColumnAlias (st : StmtState) (a : String) : Except Err ValueHandler :=
  (outputAt st a).map (fun v => getColumn st v)

/-- Alias overload databaseName(const std::string), header lines 482-484. -/
def databaseNameAlias (st : StmtState) (a : String) : Except Err String :=
  (outputAt st a).map (fun v => databaseName st v)

/-- Alias overload tableName(const std::string), header lines 494-496. -/
def tableNameAlias (st : StmtState) (a : String) : Except Err String :=
  (outputAt st a).map (fun v => tableName st v)

/-- Alias overload columnName(const std::string), header lines 508-510. -/
def columnNameAlias (st : StmtState) (a : String) : Except Err String :=
  (outputAt st a).map (fun v => columnName st v)

end StatementHandler

/-- The file system visible to SQLiteHandler::fileExists (a stat call) and to
the engine open calls: a map from path to an abstract whole-store content
snapshot (Nat). -/
abbrev FS := List (String × Nat)

/-- SQLiteHandler::fileExists (SQLiteHandler.h lines 142-145): stat succeeds
exactly when the path is present. -/
def fileExists (fs : FS) (location : String) : Bool :=
  (assocFind location fs).isSome

/-- Replace-or-add a file content, used for the save direction of the backup
API. -/
def mapSet {α : Type} (k : String) (v : α) (m : List (String × α)) :
    List (String × α) :=
  (k, v) :: m.filter (fun p => p.1 != k)

/-- Responses of the black-box SQLite engine to the connection-level calls, as
the spec describes it: a numeric result code per call (0 = success) and a
diagnostic message. execEffect is the engine-internal transformation a
successfully executed SQL text applies to the store content. -/
structure Engine where
  openCode : String → Int
  openMemCode : Int
  execCode : String → Int
  execEffect : String → Nat → Nat
  compiles : String → Bool
  errmsg : String
  changes : Int
  totalChanges : Int
  errcode : Int
  backupInitOk : Bool

/-- The connection-level view of one owned StatementHandler: its object
identity (id, fresh per construction), the database handle it was prepared
against (dbh, none when the connection had no handle), the SQL text it was
compiled from, and whether sqlite3_prepare_v2 succeeded (the constructor at
StatementHandler.cpp lines 40-44 stores the possibly null result without
checking the code, so compiled = false means the wrapper holds a null
statement handle). -/
structure ConnStmt where
  id : Nat
  dbh : Option Nat
  sql : String
  compiled : Bool
deriving DecidableEq, Repr

/-- The state of a SQLiteHandler: the exclusively owned database handle (none
when closed), the abstract content of the open store, a counter supplying
fresh identities for handles and statements, and the std::map from statement
key to owned StatementHandler. -/
structure Conn where
  db : Option Nat
  dbContent : Nat
  nextId : Nat
  stmts : List (String × ConnStmt)
deriving DecidableEq, Repr

namespace SQLiteHandler

/-- SQLiteHandler::result (SQLiteHandler.cpp lines 126-129): throws an
SQLiteException carrying sqlite3_errmsg when the code is not SQLITE_OK. -/
def result (eng : Engine) (resCode : Int) : Except Err Unit :=
  if resCode ≠ SQLITE_OK then .error (.sqliteEx eng.errmsg) else .ok ()

/-- SQLiteHandler::destroyStatement (lines 113-115): stmts.erase(key). -/
def destroyStatement (c : Conn) (key : String) : Conn :=
  { c with stmts := mapErase key c.stmts }

/-- SQLiteHandler::destroyStatements (lines 117-119): stmts.clear(). -/
def destroyStatements (c : Conn) : Conn :=
  { c with stmts := [] }

/-- SQLiteHandler::closeDatabase (lines 71-74): destroyStatements(), then
db.reset(). -/
def closeDatabase (c : Conn) : Conn :=
  { destroyStatements c with db := none }

/-- SQLiteHandler::~SQLiteHandler (lines 40-43): destroyStatements(), then
db.reset(); the final state of the owned data before deallocation. -/
def handlerDestructor (c : Conn) : Conn :=
  { destroyStatements c with db := none }

/-- SQLiteHandler::createDatabase(const std::string) (lines 45-53): throws
"File Already Exists" when the path exists; otherwise sqlite3_open (which
creates the file), result-checks the code, and replaces the handle. The
statement map is not touched. -/
def createDatabase (eng : Engine) (fs : FS) (c : Conn) (location : String) :
    Except Err (Conn × FS) :=
  if fileExists fs location = false then
    if eng.openCode location = SQLITE_OK then
      .ok ({ c with db := some c.nextId, dbContent := 0, nextId := c.nextId + 1 },
           mapInsert location 0 fs)
    else
      .error (.sqliteEx eng.errmsg)
  else
    .error (.sqliteEx ("File Already Exists"))

/-- SQLiteHandler::createDatabase() (lines 55-59): opens a transient in-memory
store. -/
def createDatabaseMem (eng : Engine) (c : Conn) : Except Err Conn :=
  if eng.openMemCode = SQLITE_OK then
    .ok { c with db := some c.nextId, dbContent := 0, nextId := c.nextId + 1 }
  else
    .error (.sqliteEx eng.errmsg)

/-- SQLiteHandler::openDatabase (lines 61-69): throws "File Does Not Exist"
when the path is missing; otherwise opens it, result-checks, and replaces the
handle. The statement map is not touched. -/
def openDatabase (eng : Engine) (fs : FS) (c : Conn) (location : String) :
    Except Err (Conn × FS) :=
  if fileExists fs location then
    if eng.openCode location = SQLITE_OK then
      .ok ({ c with db := some c.nextId,
                    dbContent := (assocFind location fs).getD 0,
                    nextId := c.nextId + 1 }, fs)
    else
      .error (.sqliteEx eng.errmsg)
  else
    .error (.sqliteEx ("File Does Not Exist"))

/-- SQLiteHandler::forceOpenDatabase (lines 76-80): unconditionally
sqlite3_open (creating the file if absent), result-checks, and replaces the
handle. The statement map is not touched. -/
def forceOpenDatabase (eng : Engine) (fs : FS) (c : Conn) (location : String) :
    Except Err (Conn × FS) :=
  if eng.openCode location = SQLITE_OK then
    .ok ({ c with db := some c.nextId,
                  dbContent := (assocFind location fs).getD 0,
                  nextId := c.nextId + 1 }, mapInsert location 0 fs)
  else
    .error (.sqliteEx eng.errmsg)

/-- SQLiteHandler::load (lines 82-91): opens the file at location (creating it
if absent), runs the engine backup file-to-live-handle when backup_init
succeeds, and closes the scratch connection. No result code is checked and
nothing is ever thrown: a failed backup_init is silently skipped. -/
def load (eng : Engine) (fs : FS) (c : Conn) (location : String) : Conn × FS :=
  (if eng.backupInitOk then
     { c with dbContent := (assocFind location fs).getD 0 }
   else c,
   mapInsert location 0 fs)

/-- SQLiteHandler::save (lines 93-102): opens the file at location (creating
it if absent), runs the engine backup live-handle-to-file when backup_init
succeeds, and closes the scratch connection. No result code is checked and
nothing is ever thrown. -/
def save (eng : Engine) (fs : FS) (c : Conn) (location : String) : FS :=
  if eng.backupInitOk then
    mapSet location c.dbContent fs
  else
    mapInsert location 0 fs

/-- SQLiteHandler::getStatement (lines 109-111): stmts.at(key), which throws
std::out_of_range when the key is absent. -/
def getStatement (c : Conn) (key : String) : Except Err ConnStmt :=
  match assocFind key c.stmts with
  | some st => .ok st
  | none => .error (.outOfRange ("map::at"))

/-- SQLiteHandler::prepareStatement (lines 104-107): constructs a new
StatementHandler against the current handle (the constructor never throws,
even when compilation fails), passes it to stmts.insert, and returns
getStatement(key). std::map::insert discards the new statement when the key
is already present. -/
def prepareStatement (eng : Engine) (c : Conn) (key : String) (stmtStr : String) :
    Except Err (Conn × ConnStmt) :=
  let newSt : ConnStmt := ⟨c.nextId, c.db, stmtStr, eng.compiles stmtStr⟩
  let c2 : Conn := { c with stmts := mapInsert key newSt c.stmts,
                            nextId := c.nextId + 1 }
  (getStatement c2 key).map (fun st => (c2, st))

/-- SQLiteHandler::rawExec (lines 121-124): result(sqlite3_exec(...)), then
returns changes(). A non-success exec code becomes a thrown SQLiteException
carrying sqlite3_errmsg. -/
def rawExec (eng : Engine) (c : Conn) (stmtStr : String) :
    Except Err (Conn × Int) :=
  if eng.execCode stmtStr = SQLITE_OK then
    .ok ({ c with dbContent := eng.execEffect stmtStr c.dbContent }, eng.changes)
  else
    .error (.sqliteEx eng.errmsg)

/-- SQLiteHandler::changes (lines 148-150). -/
def changes (eng : Engine) : Int :=
  eng.changes

/-- SQLiteHandler::totalChanges (lines 152-154). -/
def totalChanges (eng : Engine) : Int :=
  eng.totalChanges

/-- SQLiteHandler::errorCode (lines 156-158). -/
def errorCode (eng : Engine) : Int :=
  eng.errcode

/-- SQLiteHandler::errorMsg (lines 160-162). -/
def errorMsg (eng : Engine) : String :=
  eng.errmsg

end SQLiteHandler

/-! Concrete fixtures used by witnesses and counterexamples. -/

/-- An engine in which every call succeeds. -/
def engAll : Engine :=
  { openCode := fun _ => SQLITE_OK
    openMemCode := SQLITE_OK
    execCode := fun _ => SQLITE_OK
    execEffect := fun _ n => n + 1
    compiles := fun _ => true
    errmsg := "engine diagnostic"
    changes := 1
    totalChanges := 1
    errcode := 0
    backupInitOk := true }

/-- An engine in which statement compilation fails. -/
def engNoCompile : Engine :=
  { engAll with compiles := fun _ => false }

/-- An engine in which sqlite3_backup_init fails. -/
def engBackupFail : Engine :=
  { engAll with backupInitOk := false }

/-- A freshly opened connection with no statements. -/
def conn0 : Conn :=
  { db := some 1, dbContent := 0, nextId := 2, stmts := [] }

/-- A statement sitting on a current row holding one value of each type, with
one registered input alias and one registered output alias. -/
def stEx : StmtState :=
  { resultRows := [[.text ("x"), .integer 7, .float 3, .blob [1, 2], .null]]
    cursor := 1
    hasRow := true
    paramCount := 2
    bindings := []
    inputAlias := [("p", 1)]
    outputAlias := [("c", 0)]
    metaCols := [⟨"main", "t", "a"⟩] }

/-- The same statement before its first step. -/
def stFresh : StmtState :=
  { stEx with cursor := 0, hasRow := false }

/-- A statement with no bindable parameters, so every bind is out of range. -/
def stNoParams : StmtState :=
  { stEx with paramCount := 0 }

/-! Claim theorems. -/

/-- C9: StatementHandler::getType is a total function into the closed
enumeration with codes 0..5: the conditional of StatementHandler.cpp line 74
(embedded as clampType) maps every engine type code outside
SQLITE_INTEGER..SQLITE_NULL to 0 (ERROR) and keeps codes 1..5; consequently
getType returns a member of the enumeration for every statement state and
every column index, valid or not, and has no error outcome (its return type
carries no exception). -/
theorem getType_total_closed_enum :
    (∀ typeNum : Int, typeNum < SQLITE_INTEGER ∨ SQLITE_NULL < typeNum →
        StatementHandler.clampType typeNum = 0) ∧
    (∀ typeNum : Int, SQLITE_INTEGER ≤ typeNum → typeNum ≤ SQLITE_NULL →
        StatementHandler.clampType typeNum = typeNum) ∧
    (∀ (st : StmtState) (col : Int),
        StatementHandler.getType st col = 0 ∨
          (SQLITE_INTEGER ≤ StatementHandler.getType st col ∧
            StatementHandler.getType st col ≤ SQLITE_NULL)) := by
  refine ⟨?_, ?_, ?_⟩
  · intro t ht
    unfold StatementHandler.clampType
    simp only [SQLITE_INTEGER, SQLITE_NULL] at ht ⊢
    split_ifs with h
    · omega
    · rfl
  · intro t h1 h5
    unfold StatementHandler.clampType
    simp only [SQLITE_INTEGER, SQLITE_NULL] at h1 h5 ⊢
    split_ifs with h
    · rfl
    · omega
  · intro st col
    unfold StatementHandler.getType StatementHandler.clampType
    simp only [SQLITE_INTEGER, SQLITE_NULL]
    split_ifs with h
    · right; omega
    · left; rfl

/-- Witness for C9: the engine code 7 lies outside 1..5 and is clamped to 0. -/
theorem getType_total_closed_enum_w :
    StatementHandler.clampType 7 = 0 :=
  getType_total_closed_enum.1 7 (by decide)

/-- C8: StatementHandler::step returns true exactly when the engine has a
further result row (equivalently, when sqlite3_step answers SQLITE_ROW), and
false once execution has completed; a second step after a false outcome,
without an intervening reset, is false again. Both outcomes are ordinary
return values: step has return type Bool and no error outcome. -/
theorem step_row_semantics (st : StmtState) :
    ((StatementHandler.step st).1 = ((engineStep st).1 == SQLITE_ROW)) ∧
    ((StatementHandler.step st).1 = true ↔ st.cursor < st.resultRows.length) ∧
    ((StatementHandler.step st).1 = false →
      (StatementHandler.step (StatementHandler.step st).2).1 = false) := by
  refine ⟨rfl, ?_, ?_⟩
  · unfold StatementHandler.step engineStep
    by_cases h : st.cursor < st.resultRows.length
    · simp [h, SQLITE_ROW]
    · simp [h, SQLITE_ROW, SQLITE_DONE]
  · intro hfalse
    unfold StatementHandler.step engineStep at hfalse ⊢
    by_cases h : st.cursor < st.resultRows.length
    · simp [h, SQLITE_ROW] at hfalse
    · simp only [h, if_false]
      simp [h, SQLITE_ROW, SQLITE_DONE]

/-- Witness for C8: on the one-row fixture, the first step is true, the second
is false, and a third (after the false) is false again. -/
theorem step_row_semantics_w :
    (StatementHandler.step stFresh).1 = true ∧
    (StatementHandler.step (StatementHandler.step stFresh).2).1 = false ∧
    (StatementHandler.step
      (StatementHandler.step (StatementHandler.step stFresh).2).2).1 = false := by
  refine ⟨?_, ?_, ?_⟩
  · exact (step_row_semantics stFresh).2.1.mpr (by decide)
  · decide
  · exact (step_row_semantics (StatementHandler.step stFresh).2).2.2 (by decide)

theorem cell_of_getType_text (st : StmtState) (col : Int)
    (h : StatementHandler.getType st col = SQLITE_TEXT) :
    ∃ s, currentCell st col = some (.text s) := by
  unfold StatementHandler.getType engineColumnType at h
  cases hc : currentCell st col with
  | none =>
      rw [hc] at h
      exact absurd h (by decide)
  | some v =>
      rw [hc] at h
      cases v with
      | text s => exact ⟨s, rfl⟩
      | integer i => simp [StatementHandler.clampType, SQLValue.typeCode, SQLITE_INTEGER, SQLITE_FLOAT, SQLITE_TEXT, SQLITE_BLOB, SQLITE_NULL] at h
      | float b => simp [StatementHandler.clampType, SQLValue.typeCode, SQLITE_INTEGER, SQLITE_FLOAT, SQLITE_TEXT, SQLITE_BLOB, SQLITE_NULL] at h
      | blob b => simp [StatementHandler.clampType, SQLValue.typeCode, SQLITE_INTEGER, SQLITE_FLOAT, SQLITE_TEXT, SQLITE_BLOB, SQLITE_NULL] at h
      | null => simp [StatementHandler.clampType, SQLValue.typeCode, SQLITE_INTEGER, SQLITE_FLOAT, SQLITE_TEXT, SQLITE_BLOB, SQLITE_NULL] at h

theorem cell_of_getType_integer (st : StmtState) (col : Int)
    (h : StatementHandler.getType st col = SQLITE_INTEGER) :
    ∃ i, currentCell st col = some (.integer i) := by
  unfold StatementHandler.getType engineColumnType at h
  cases hc : currentCell st col with
  | none =>
      rw [hc] at h
      exact absurd h (by decide)
  | some v =>
      rw [hc] at h
      cases v with
      | integer i => exact ⟨i, rfl⟩
      | text s => simp [StatementHandler.clampType, SQLValue.typeCode, SQLITE_INTEGER, SQLITE_FLOAT, SQLITE_TEXT, SQLITE_BLOB, SQLITE_NULL] at h
      | float b => simp [StatementHandler.clampType, SQLValue.typeCode, SQLITE_INTEGER, SQLITE_FLOAT, SQLITE_TEXT, SQLITE_BLOB, SQLITE_NULL] at h
      | blob b => simp [StatementHandler.clampType, SQLValue.typeCode, SQLITE_INTEGER, SQLITE_FLOAT, SQLITE_TEXT, SQLITE_BLOB, SQLITE_NULL] at h
      | null => simp [StatementHandler.clampType, SQLValue.typeCode, SQLITE_INTEGER, SQLITE_FLOAT, SQLITE_TEXT, SQLITE_BLOB, SQLITE_NULL] at h

theorem cell_of_getType_float (st : StmtState) (col : Int)
    (h : StatementHandler.getType st col = SQLITE_FLOAT) :
    ∃ b, currentCell st col = some (.float b) := by
  unfold StatementHandler.getType engineColumnType at h
  cases hc : currentCell st col with
  | none =>
      rw [hc] at h
      exact absurd h (by decide)
  | some v =>
      rw [hc] at h
      cases v with
      | float b => exact ⟨b, rfl⟩
      | text s => simp [StatementHandler.clampType, SQLValue.typeCode, SQLITE_INTEGER, SQLITE_FLOAT, SQLITE_TEXT, SQLITE_BLOB, SQLITE_NULL] at h
      | integer i => simp [StatementHandler.clampType, SQLValue.typeCode, SQLITE_INTEGER, SQLITE_FLOAT, SQLITE_TEXT, SQLITE_BLOB, SQLITE_NULL] at h
      | blob b => simp [StatementHandler.clampType, SQLValue.typeCode, SQLITE_INTEGER, SQLITE_FLOAT, SQLITE_TEXT, SQLITE_BLOB, SQLITE_NULL] at h
      | null => simp [StatementHandler.clampType, SQLValue.typeCode, SQLITE_INTEGER, SQLITE_FLOAT, SQLITE_TEXT, SQLITE_BLOB, SQLITE_NULL] at h

theorem cell_of_getType_blob (st : StmtState) (col : Int)
    (h : StatementHandler.getType st col = SQLITE_BLOB) :
    ∃ b, currentCell st col = some (.blob b) := by
  unfold StatementHandler.getType engineColumnType at h
  cases hc : currentCell st col with
  | none =>
      rw [hc] at h
      exact absurd h (by decide)
  | some v =>
      rw [hc] at h
      cases v with
      | blob b => exact ⟨b, rfl⟩
      | text s => simp [StatementHandler.clampType, SQLValue.typeCode, SQLITE_INTEGER, SQLITE_FLOAT, SQLITE_TEXT, SQLITE_BLOB, SQLITE_NULL] at h
      | integer i => simp [StatementHandler.clampType, SQLValue.typeCode, SQLITE_INTEGER, SQLITE_FLOAT, SQLITE_TEXT, SQLITE_BLOB, SQLITE_NULL] at h
      | float b => simp [StatementHandler.clampType, SQLValue.typeCode, SQLITE_INTEGER, SQLITE_FLOAT, SQLITE_TEXT, SQLITE_BLOB, SQLITE_NULL] at h
      | null => simp [StatementHandler.clampType, SQLValue.typeCode, SQLITE_INTEGER, SQLITE_FLOAT, SQLITE_TEXT, SQLITE_BLOB, SQLITE_NULL] at h

/-- C5: each typed getter dispatches on the dynamic type reported for the
column. When the dynamic type differs from the requested one, the getter
returns the type-mismatch error naming the expected kind and no value; when it
matches, the getter returns exactly the value stored in the column (getInt and
getInt64 both require INTEGER, getDouble requires FLOAT, getString requires
TEXT, getBlob requires BLOB). -/
theorem typed_getters_dispatch (st : StmtState) (col : Int) :
    (StatementHandler.getType st col = SQLITE_TEXT →
      ∃ s, currentCell st col = some (.text s) ∧
        StatementHandler.getString st col = .ok s) ∧
    (StatementHandler.getType st col ≠ SQLITE_TEXT →
      StatementHandler.getString st col =
        .error (.sqliteEx ("Column doesn\x27t contain a string"))) ∧
    (StatementHandler.getType st col = SQLITE_INTEGER →
      ∃ i, currentCell st col = some (.integer i) ∧
        StatementHandler.getInt st col = .ok i ∧
        StatementHandler.getInt64 st col = .ok i) ∧
    (StatementHandler.getType st col ≠ SQLITE_INTEGER →
      StatementHandler.getInt st col =
          .error (.sqliteEx ("Column doesn\x27t contain a int")) ∧
        StatementHandler.getInt64 st col =
          .error (.sqliteEx ("Column doesn\x27t contain a int"))) ∧
    (StatementHandler.getType st col = SQLITE_FLOAT →
      ∃ b, currentCell st col = some (.float b) ∧
        StatementHandler.getDouble st col = .ok b) ∧
    (StatementHandler.getType st col ≠ SQLITE_FLOAT →
      StatementHandler.getDouble st col =
        .error (.sqliteEx ("Column doesn\x27t contain a float"))) ∧
    (StatementHandler.getType st col = SQLITE_BLOB →
      ∃ b, currentCell st col = some (.blob b) ∧
        StatementHandler.getBlob st col = .ok b) ∧
    (StatementHandler.getType st col ≠ SQLITE_BLOB →
      StatementHandler.getBlob st col =
        .error (.sqliteEx ("Column doesn\x27t contain a blob"))) := by
  refine ⟨?_, ?_, ?_, ?_, ?_, ?_, ?_, ?_⟩
  · intro h
    obtain ⟨s, hc⟩ := cell_of_getType_text st col h
    exact ⟨s, hc, by simp [StatementHandler.getString, h, engineColumnText, hc]⟩
  · intro h
    simp [StatementHandler.getString, h]
  · intro h
    obtain ⟨i, hc⟩ := cell_of_getType_integer st col h
    refine ⟨i, hc, ?_, ?_⟩
    · simp [StatementHandler.getInt, h, engineColumnInt, hc]
    · simp [StatementHandler.getInt64, h, engineColumnInt64, hc]
  · intro h
    exact ⟨by simp [StatementHandler.getInt, h], by simp [StatementHandler.getInt64, h]⟩
  · intro h
    obtain ⟨b, hc⟩ := cell_of_getType_float st col h
    exact ⟨b, hc, by simp [StatementHandler.getDouble, h, engineColumnDouble, hc]⟩
  · intro h
    simp [StatementHandler.getDouble, h]
  · intro h
    obtain ⟨b, hc⟩ := cell_of_getType_blob st col h
    exact ⟨b, hc, by simp [StatementHandler.getBlob, h, engineColumnBlob, hc]⟩
  · intro h
    simp [StatementHandler.getBlob, h]

/-- Witness for C5 on the fixture row: column 0 holds text, so getString
succeeds with the stored value and getInt raises the int type-mismatch
error. -/
theorem typed_getters_dispatch_w :
    StatementHandler.getString stEx 0 = .ok ("x") ∧
    StatementHandler.getInt stEx 0 =
      .error (.sqliteEx ("Column doesn\x27t contain a int")) := by
  constructor
  · obtain ⟨s, hc, hres⟩ := (typed_getters_dispatch stEx 0).1 (by decide)
    have : s = "x" := by
      have h2 : currentCell stEx 0 = some (.text ("x")) := by decide
      rw [h2] at hc
      cases hc
      rfl
    rw [this] at hres
    exact hres
  · exact ((typed_getters_dispatch stEx 0).2.2.2.1 (by decide)).1

/-- C10: registering an alias that is already registered leaves the statement
completely unchanged (std::map::insert keeps the existing entry and discards
the new index); in particular subsequent alias lookups still resolve to the
originally registered index. setInputAlias and setOutputAlias are total and
raise no error. -/
theorem setAlias_keeps_existing (st : StmtState) (a : String) (i j : Int) :
    (assocFind a st.inputAlias = some i →
      StatementHandler.setInputAlias st a j = st ∧
      StatementHandler.inputAt (StatementHandler.setInputAlias st a j) a = .ok i) ∧
    (assocFind a st.outputAlias = some i →
      StatementHandler.setOutputAlias st a j = st ∧
      StatementHandler.outputAt (StatementHandler.setOutputAlias st a j) a = .ok i) := by
  constructor
  · intro h
    have hm : mapInsert a j st.inputAlias = st.inputAlias :=
      assocFind_mapInsert_present a j i st.inputAlias h
    have hs : StatementHandler.setInputAlias st a j = st := by
      unfold StatementHandler.setInputAlias
      rw [hm]
    refine ⟨hs, ?_⟩
    rw [hs]
    unfold StatementHandler.inputAt
    rw [h]
  · intro h
    have hm : mapInsert a j st.outputAlias = st.outputAlias :=
      assocFind_mapInsert_present a j i st.outputAlias h
    have hs : StatementHandler.setOutputAlias st a j = st := by
      unfold StatementHandler.setOutputAlias
      rw [hm]
    refine ⟨hs, ?_⟩
    rw [hs]
    unfold StatementHandler.outputAt
    rw [h]

/-- Witness for C10: re-registering the fixture aliases with a different index
changes nothing and the lookups still give the original indices. -/
theorem setAlias_keeps_existing_w :
    StatementHandler.setInputAlias stEx ("p") 9 = stEx ∧
    StatementHandler.inputAt (StatementHandler.setInputAlias stEx ("p") 9) ("p") = .ok 1 := by
  have h := (setAlias_keeps_existing stEx ("p") 1 9).1 (by decide)
  exact h

/-- C6: every alias-suffixed bind, get and metadata operation is the lookup of
the alias in the corresponding alias map followed by the index-based
operation. An unregistered alias makes the call fail with the key-not-found
condition (the std::out_of_range thrown by std::map::at) before anything
touches the statement, so the statement state is unaffected; a registered
alias makes the call behave exactly like the index-based operation at the
registered index — including producing the very behaviour of that operation, such
as its out-of-range error, when the resolved index is invalid. -/
theorem alias_ops_delegate (st : StmtState) (a s2 : String) (n : Int) (d : Nat)
    (bs : List Nat) (sz : Int) :
    (assocFind a st.inputAlias = none →
      StatementHandler.bindTextAlias st a s2 = .error (.outOfRange ("map::at")) ∧
      StatementHandler.bindIntAlias st a n = .error (.outOfRange ("map::at")) ∧
      StatementHandler.bindDoubleAlias st a d = .error (.outOfRange ("map::at")) ∧
      StatementHandler.bindBlobAlias st a bs sz = .error (.outOfRange ("map::at")) ∧
      StatementHandler.bindNullAlias st a = .error (.outOfRange ("map::at"))) ∧
    (∀ i, assocFind a st.inputAlias = some i →
      StatementHandler.bindTextAlias st a s2 = .ok (StatementHandler.bindText st i s2) ∧
      StatementHandler.bindIntAlias st a n = .ok (StatementHandler.bindInt st i n) ∧
      StatementHandler.bindDoubleAlias st a d = .ok (StatementHandler.bindDouble st i d) ∧
      StatementHandler.bindBlobAlias st a bs sz = .ok (StatementHandler.bindBlob st i bs sz) ∧
      StatementHandler.bindNullAlias st a = .ok (StatementHandler.bindNull st i)) ∧
    (assocFind a st.outputAlias = none →
      StatementHandler.getTypeAlias st a = .error (.outOfRange ("map::at")) ∧
      StatementHandler.getSizeAlias st a = .error (.outOfRange ("map::at")) ∧
      StatementHandler.getStringAlias st a = .error (.outOfRange ("map::at")) ∧
      StatementHandler.getIntAlias st a = .error (.outOfRange ("map::at")) ∧
      StatementHandler.getInt64Alias st a = .error (.outOfRange ("map::at")) ∧
      StatementHandler.getDoubleAlias st a = .error (.outOfRange ("map::at")) ∧
      StatementHandler.getBlobAlias st a = .error (.outOfRange ("map::at")) ∧
      StatementHandler.getColumnAlias st a = .error (.outOfRange ("map::at")) ∧
      StatementHandler.databaseNameAlias st a = .error (.outOfRange ("map::at")) ∧
      StatementHandler.tableNameAlias st a = .error (.outOfRange ("map::at")) ∧
      StatementHandler.columnNameAlias st a = .error (.outOfRange ("map::at"))) ∧
    (∀ i, assocFind a st.outputAlias = some i →
      StatementHandler.getTypeAlias st a = .ok (StatementHandler.getType st i) ∧
      StatementHandler.getSizeAlias st a = .ok (StatementHandler.getSize st i) ∧
      StatementHandler.getStringAlias st a = StatementHandler.getString st i ∧
      StatementHandler.getIntAlias st a = StatementHandler.getInt st i ∧
      StatementHandler.getInt64Alias st a = StatementHandler.getInt64 st i ∧
      StatementHandler.getDoubleAlias st a = StatementHandler.getDouble st i ∧
      StatementHandler.getBlobAlias st a = StatementHandler.getBlob st i ∧
      StatementHandler.getColumnAlias st a = .ok (StatementHandler.getColumn st i) ∧
      StatementHandler.databaseNameAlias st a = .ok (StatementHandler.databaseName st i) ∧
      StatementHandler.tableNameAlias st a = .ok (StatementHandler.tableName st i) ∧
      StatementHandler.columnNameAlias st a = .ok (StatementHandler.columnName st i)) := by
  refine ⟨?_, ?_, ?_, ?_⟩
  · intro h
    refine ⟨?_, ?_, ?_, ?_, ?_⟩ <;>
      simp [StatementHandler.bindTextAlias, StatementHandler.bindIntAlias,
        StatementHandler.bindDoubleAlias, StatementHandler.bindBlobAlias,
        StatementHandler.bindNullAlias, StatementHandler.inputAt, h, Except.map]
  · intro i h
    refine ⟨?_, ?_, ?_, ?_, ?_⟩ <;>
      simp [StatementHandler.bindTextAlias, StatementHandler.bindIntAlias,
        StatementHandler.bindDoubleAlias, StatementHandler.bindBlobAlias,
        StatementHandler.bindNullAlias, StatementHandler.inputAt, h,
        StatementHandler.bindText, StatementHandler.bindInt,
        StatementHandler.bindDouble, StatementHandler.bindBlob,
        StatementHandler.bindNull, Except.map]
  · intro h
    refine ⟨?_, ?_, ?_, ?_, ?_, ?_, ?_, ?_, ?_, ?_, ?_⟩ <;>
      simp [StatementHandler.getTypeAlias, StatementHandler.getSizeAlias,
        StatementHandler.getStringAlias, StatementHandler.getIntAlias,
        StatementHandler.getInt64Alias, StatementHandler.getDoubleAlias,
        StatementHandler.getBlobAlias, StatementHandler.getColumnAlias,
        StatementHandler.databaseNameAlias, StatementHandler.tableNameAlias,
        StatementHandler.columnNameAlias, StatementHandler.outputAt, h,
        Except.bind, Except.map]
  · intro i h
    refine ⟨?_, ?_, ?_, ?_, ?_, ?_, ?_, ?_, ?_, ?_, ?_⟩ <;>
      simp [StatementHandler.getTypeAlias, StatementHandler.getSizeAlias,
        StatementHandler.getStringAlias, StatementHandler.getIntAlias,
        StatementHandler.getInt64Alias, StatementHandler.getDoubleAlias,
        StatementHandler.getBlobAlias, StatementHandler.getColumnAlias,
        StatementHandler.databaseNameAlias, StatementHandler.tableNameAlias,
        StatementHandler.columnNameAlias, StatementHandler.outputAt, h,
        Except.bind, Except.map]

/-- Witness for C6: on the fixture, the unregistered alias q fails with the
map lookup error, and the registered output alias c reads column 0 exactly
like the positional call. -/
theorem alias_ops_delegate_w :
    StatementHandler.getStringAlias stEx ("q") = .error (.outOfRange ("map::at")) ∧
    StatementHandler.getStringAlias stEx ("c") = StatementHandler.getString stEx 0 ∧
    StatementHandler.bindIntAlias stEx ("p") 5 = .ok (StatementHandler.bindInt stEx 1 5) := by
  refine ⟨?_, ?_, ?_⟩
  · exact ((alias_ops_delegate stEx ("q") "" 0 0 [] 0).2.2.1 (by decide)).2.2.1
  · exact ((alias_ops_delegate stEx ("c") "" 0 0 [] 0).2.2.2 0 (by decide)).2.2.1
  · exact ((alias_ops_delegate stEx ("p") "" 5 0 [] 0).2.1 1 (by decide)).2.1

theorem fileExists_mapInsert_self (fs : FS) (loc : String) (v : Nat) :
    fileExists (mapInsert loc v fs) loc = true := by
  cases h : assocFind loc fs with
  | some w => simp [fileExists, mapInsert, h]
  | none => simp [fileExists, mapInsert, h, assocFind]

/-- C1 (code behaviour at the failing input): preparing a second statement
under an already-used key does not replace the first. std::map::insert at
SQLiteHandler.cpp line 105 discards the newly compiled StatementHandler when
the key exists, so the connection still maps k to the statement compiled from
the first SQL text, and prepareStatement returns that old statement — not the
new one, contrary to the claim and to the header documentation of
prepareStatement (which promises the newly created statement is placed in the
map and returned). -/
theorem prepare_duplicate_key_keeps_old :
    ∃ c1 s1 c2 s2,
      SQLiteHandler.prepareStatement engAll conn0 ("k") "sql one" = .ok (c1, s1) ∧
      SQLiteHandler.prepareStatement engAll c1 ("k") "sql two" = .ok (c2, s2) ∧
      s1.sql = "sql one" ∧
      s2 = s1 ∧
      SQLiteHandler.getStatement c2 ("k") = .ok s1 ∧
      assocFind ("k") c2.stmts = some s1 :=
  ⟨_, _, _, _, rfl, rfl, rfl, rfl, rfl, rfl⟩

/-- C2 (code behaviour at the failing input): when the engine fails to compile
the SQL text, the StatementHandler constructor (StatementHandler.cpp lines
40-44) ignores the sqlite3_prepare_v2 result code, so prepareStatement raises
nothing and registers under the key a Statement wrapping a null handle
(compiled = false) — contrary to the claim, which demands a raised
prepare-error and no newly registered Statement. -/
theorem prepare_failure_silently_registers :
    ∃ c1 s1,
      SQLiteHandler.prepareStatement engNoCompile conn0 ("k") "NOT VALID SQL" =
        .ok (c1, s1) ∧
      s1.compiled = false ∧
      assocFind ("k") c1.stmts = some s1 :=
  ⟨_, _, rfl, rfl, rfl⟩

/-- Counterexample for C3: engine failures that the wrapper silently
suppresses. Binding parameter 1 of a statement with no parameters makes the
engine report SQLITE_RANGE (a non-success code), yet bind returns the
unchanged statement normally — its embedded type, like the C++ void member
that throws nothing, has no error outcome. Likewise load and save with a
failed sqlite3_backup_init complete normally without copying anything, and
raise nothing. -/
theorem engine_failure_suppressed_cx :
    SQLITE_RANGE ≠ SQLITE_OK ∧
    (engineBind stNoParams 1 (.integer 7)).1 = SQLITE_RANGE ∧
    StatementHandler.bindInt stNoParams 1 7 = stNoParams ∧
    SQLiteHandler.load engBackupFail [("a", 3)] conn0 ("a") = (conn0, [("a", 3)]) ∧
    SQLiteHandler.save engBackupFail [("a", 3)] conn0 ("b") = [("b", 0), ("a", 3)] := by
  refine ⟨by decide, by decide, by decide, ?_, ?_⟩
  · simp [SQLiteHandler.load, engBackupFail, engAll, mapInsert, assocFind]
  · simp [SQLiteHandler.save, engBackupFail, engAll, mapInsert, assocFind]

/-- C3 as amended: the operations routed through SQLiteHandler::result —
rawExec, createDatabase, openDatabase and forceOpenDatabase — translate every
non-success engine result code into a raised error carrying the engine
diagnostic; but the Statement bind operations and load/save check no result
code at all: an out-of-range bind or a failed backup initialization is
silently ignored and the call returns normally. -/
theorem error_translation_boundary (eng : Engine) (c : Conn) (fs : FS)
    (s loc : String) (st : StmtState) (var : Int) (input : String) (n : Int)
    (d : Nat) (bs : List Nat) (sz : Int) :
    (eng.execCode s ≠ SQLITE_OK →
      SQLiteHandler.rawExec eng c s = .error (.sqliteEx eng.errmsg)) ∧
    (eng.openCode loc ≠ SQLITE_OK →
      SQLiteHandler.forceOpenDatabase eng fs c loc = .error (.sqliteEx eng.errmsg) ∧
      (fileExists fs loc = false →
        SQLiteHandler.createDatabase eng fs c loc = .error (.sqliteEx eng.errmsg)) ∧
      (fileExists fs loc = true →
        SQLiteHandler.openDatabase eng fs c loc = .error (.sqliteEx eng.errmsg))) ∧
    (¬(1 ≤ var ∧ var ≤ (st.paramCount : Int)) →
      (engineBind st var (.text input)).1 ≠ SQLITE_OK ∧
      StatementHandler.bindText st var input = st ∧
      StatementHandler.bindInt st var n = st ∧
      StatementHandler.bindDouble st var d = st ∧
      StatementHandler.bindBlob st var bs sz = st ∧
      StatementHandler.bindNull st var = st) ∧
    (eng.backupInitOk = false →
      (SQLiteHandler.load eng fs c loc).1 = c ∧
      SQLiteHandler.save eng fs c loc = mapInsert loc 0 fs) := by
  refine ⟨?_, ?_, ?_, ?_⟩
  · intro h
    simp [SQLiteHandler.rawExec, h]
  · intro h
    refine ⟨?_, ?_, ?_⟩
    · simp [SQLiteHandler.forceOpenDatabase, h]
    · intro hex
      simp [SQLiteHandler.createDatabase, hex, h]
    · intro hex
      simp [SQLiteHandler.openDatabase, hex, h]
  · intro h
    refine ⟨?_, ?_, ?_, ?_, ?_, ?_⟩ <;>
      simp [engineBind, StatementHandler.bindText, StatementHandler.bindInt,
        StatementHandler.bindDouble, StatementHandler.bindBlob,
        StatementHandler.bindNull, h, SQLITE_RANGE, SQLITE_OK]
  · intro h
    exact ⟨by simp [SQLiteHandler.load, h], by simp [SQLiteHandler.save, h]⟩

/-- Witness for the amended C3: with a failing exec code the rawExec call
raises the engine diagnostic, and the out-of-range bind on the fixture
statement without parameters is silently ignored. -/
theorem error_translation_boundary_w :
    SQLiteHandler.rawExec { engAll with execCode := fun _ => SQLITE_ERROR }
        conn0 ("X") = .error (.sqliteEx ("engine diagnostic")) ∧
    StatementHandler.bindText stNoParams 1 ("v") = stNoParams := by
  constructor
  · exact (error_translation_boundary
      { engAll with execCode := fun _ => SQLITE_ERROR } conn0 [] ("X") "X"
      stNoParams 1 ("v") 0 0 [] 0).1 (by decide)
  · exact ((error_translation_boundary engAll conn0 [] ("X") "X"
      stNoParams 1 ("v") 0 0 [] 0).2.2.1 (by decide)).2.1

/-- A connection owning one statement prepared against handle 1. -/
def connWithStmt : Conn :=
  { db := some 1, dbContent := 0, nextId := 5,
    stmts := [("k", ⟨2, some 1, "sql one", true⟩)] }

/-- Counterexample for C4: forceOpenDatabase on a connection that owns a
statement replaces the handle (1 becomes 5) but leaves the statement map
untouched, so the owned statement survives and still refers to the released
handle 1 — the claim says the statements are destroyed before the handle is
replaced. -/
theorem open_ops_keep_statements_cx :
    ∃ c2 fs2,
      SQLiteHandler.forceOpenDatabase engAll [] connWithStmt ("b") = .ok (c2, fs2) ∧
      c2.stmts = connWithStmt.stmts ∧
      c2.db = some 5 ∧
      ∃ s, assocFind ("k") c2.stmts = some s ∧ s.dbh = some 1 ∧ c2.db ≠ s.dbh :=
  ⟨_, _, rfl, rfl, rfl, _, rfl, rfl, by decide⟩

/-- C4 as amended: closeDatabase and the destructor destroy all owned
Statements and then release the handle, and closeDatabase is idempotent; but
createDatabase, openDatabase and forceOpenDatabase replace the handle while
leaving the statement map untouched, so owned Statements do survive a handle
replacement. -/
theorem close_destroys_statements (eng : Engine) (fs : FS) (c : Conn)
    (loc : String) :
    (SQLiteHandler.closeDatabase c).stmts = [] ∧
    (SQLiteHandler.closeDatabase c).db = none ∧
    SQLiteHandler.closeDatabase (SQLiteHandler.closeDatabase c) =
      SQLiteHandler.closeDatabase c ∧
    SQLiteHandler.handlerDestructor c = SQLiteHandler.closeDatabase c ∧
    (∀ c2 fs2, SQLiteHandler.createDatabase eng fs c loc = .ok (c2, fs2) →
      c2.stmts = c.stmts) ∧
    (∀ c2 fs2, SQLiteHandler.openDatabase eng fs c loc = .ok (c2, fs2) →
      c2.stmts = c.stmts) ∧
    (∀ c2 fs2, SQLiteHandler.forceOpenDatabase eng fs c loc = .ok (c2, fs2) →
      c2.stmts = c.stmts) := by
  refine ⟨rfl, rfl, rfl, rfl, ?_, ?_, ?_⟩
  · intro c2 fs2 h
    unfold SQLiteHandler.createDatabase at h
    split_ifs at h with h1 h2
    injection h with h3
    injection h3 with h4 h5
    subst h4
    rfl
  · intro c2 fs2 h
    unfold SQLiteHandler.openDatabase at h
    split_ifs at h with h1 h2
    injection h with h3
    injection h3 with h4 h5
    subst h4
    rfl
  · intro c2 fs2 h
    unfold SQLiteHandler.forceOpenDatabase at h
    split_ifs at h with h1
    injection h with h3
    injection h3 with h4 h5
    subst h4
    rfl

/-- Witness for the amended C4: on the fixture connection with one statement,
closing empties the map and releases the handle, doing it twice is the same,
and a forceOpenDatabase keeps the statement map. -/
theorem close_destroys_statements_w :
    (SQLiteHandler.closeDatabase connWithStmt).stmts = [] ∧
    (SQLiteHandler.closeDatabase connWithStmt).db = none ∧
    SQLiteHandler.closeDatabase (SQLiteHandler.closeDatabase connWithStmt) =
      SQLiteHandler.closeDatabase connWithStmt := by
  have h := close_destroys_statements engAll [] connWithStmt ("b")
  exact ⟨h.1, h.2.1, h.2.2.1⟩

/-- C7: with an engine whose open call succeeds at the location (the engine is
the correct black box the spec assumes), createDatabase on an existing path
raises File Already Exists while openDatabase and forceOpenDatabase succeed;
on a missing path openDatabase raises File Does Not Exist while createDatabase
and forceOpenDatabase succeed and the file exists afterwards (sqlite3_open
creates it). -/
theorem create_open_force_existence (eng : Engine) (fs : FS) (c : Conn)
    (loc : String) (hopen : eng.openCode loc = SQLITE_OK) :
    (fileExists fs loc = true →
      SQLiteHandler.createDatabase eng fs c loc =
        .error (.sqliteEx ("File Already Exists")) ∧
      (∃ c2 fs2, SQLiteHandler.openDatabase eng fs c loc = .ok (c2, fs2) ∧
        c2.db = some c.nextId ∧ fs2 = fs) ∧
      (∃ c2 fs2, SQLiteHandler.forceOpenDatabase eng fs c loc = .ok (c2, fs2) ∧
        c2.db = some c.nextId ∧ fileExists fs2 loc = true)) ∧
    (fileExists fs loc = false →
      SQLiteHandler.openDatabase eng fs c loc =
        .error (.sqliteEx ("File Does Not Exist")) ∧
      (∃ c2 fs2, SQLiteHandler.createDatabase eng fs c loc = .ok (c2, fs2) ∧
        c2.db = some c.nextId ∧ fileExists fs2 loc = true) ∧
      (∃ c2 fs2, SQLiteHandler.forceOpenDatabase eng fs c loc = .ok (c2, fs2) ∧
        c2.db = some c.nextId ∧ fileExists fs2 loc = true)) := by
  constructor
  · intro hex
    refine ⟨?_, ?_, ?_⟩
    · simp [SQLiteHandler.createDatabase, hex]
    · exact ⟨{ c with db := some c.nextId, dbContent := (assocFind loc fs).getD 0, nextId := c.nextId + 1 }, fs,
               by simp [SQLiteHandler.openDatabase, hex, hopen], rfl, rfl⟩
    · exact ⟨{ c with db := some c.nextId, dbContent := (assocFind loc fs).getD 0, nextId := c.nextId + 1 },
               mapInsert loc 0 fs,
               by simp [SQLiteHandler.forceOpenDatabase, hopen], rfl,
               fileExists_mapInsert_self fs loc 0⟩
  · intro hex
    refine ⟨?_, ?_, ?_⟩
    · simp [SQLiteHandler.openDatabase, hex]
    · exact ⟨{ c with db := some c.nextId, dbContent := 0, nextId := c.nextId + 1 },
               mapInsert loc 0 fs,
               by simp [SQLiteHandler.createDatabase, hex, hopen], rfl,
               fileExists_mapInsert_self fs loc 0⟩
    · exact ⟨{ c with db := some c.nextId, dbContent := (assocFind loc fs).getD 0, nextId := c.nextId + 1 },
               mapInsert loc 0 fs,
               by simp [SQLiteHandler.forceOpenDatabase, hopen], rfl,
               fileExists_mapInsert_self fs loc 0⟩

/-- Witness for C7: with the all-success engine, on a file system holding x
only, createDatabase of x raises already-exists and openDatabase of y raises
does-not-exist; forceOpenDatabase of y succeeds. -/
theorem create_open_force_existence_w :
    SQLiteHandler.createDatabase engAll [("x", 0)] conn0 ("x") =
      .error (.sqliteEx ("File Already Exists")) ∧
    SQLiteHandler.openDatabase engAll [("x", 0)] conn0 ("y") =
      .error (.sqliteEx ("File Does Not Exist")) ∧
    (∃ c2 fs2, SQLiteHandler.forceOpenDatabase engAll [("x", 0)] conn0 ("y") =
      .ok (c2, fs2) ∧ c2.db = some conn0.nextId ∧ fileExists fs2 ("y") = true) := by
  refine ⟨?_, ?_, ?_⟩
  · exact ((create_open_force_existence engAll [("x", 0)] conn0 ("x") rfl).1
      (by decide)).1
  · exact ((create_open_force_existence engAll [("x", 0)] conn0 ("y") rfl).2
      (by decide)).1
  · exact ((create_open_force_existence engAll [("x", 0)] conn0 ("y") rfl).2
      (by decide)).2.2

end SQLiter
